import Mathlib

/-!
# Workout-timer engine: shallow embedding and verification

Shallow embedding of the phase-sequence timer engine of the workout-timer
app (main variant: `src/unnamed/part_000`; the near-duplicate
`src/script.js` differs only in omitting the setup phase from the interval
builder).

Conventions of the embedding:

* All clock quantities are exact integers in **centiseconds**: the source
  ticks every 10 ms and adds/subtracts `0.01` s per tick, so one model time
  unit is 0.01 s and the tick quantum is `1`.  Configured durations are
  whole seconds (the form fields go through `parseInt`), stored in phases
  in seconds as in the source; loading a phase converts to centiseconds by
  multiplying by 100 (`timeRemaining = phase.duration` in the source, unit
  change here).
* Form fields parsed with `parseInt(v) || d` are modelled as `Option Int`
  (`none` = `NaN`, i.e. an unparsable field) combined with `jsOrInt`,
  which maps both `none` and `some 0` to the default — exactly JS's
  falsy-`||` behaviour on numbers.
* The `setTimeout(cb, 500)` settle delay is modelled by an explicit FIFO
  queue of captured `nextIndex` values in the state (`pending`); the event
  `settleFire` pops the oldest entry and runs the callback body with the
  captured index, exactly as the JS event loop would.  `resetTimer` in the
  source does **not** cancel the timeout (it only clears the tick
  interval), so `resetTimer` here leaves `pending` untouched.
* Audio/vibration cues and display updates are abstracted into a list of
  emitted notifications returned next to the new state; DOM/audio/presets
  code is out of scope.
-/

namespace WorkoutTimer

/-- JS `parseInt(v) || d`: `none` models `NaN` (unparsable field) and `0`
is falsy, so both fall back to the default `d`. -/
def jsOrInt (v : Option Int) (d : Int) : Int :=
  match v with
  | none => d
  | some n => if n = 0 then d else n

/-- Workout mode (`workoutState.workoutMode`). -/
inductive Mode where
  | normal
  | headToHead
  | stopwatch
deriving DecidableEq, Repr

/-- Kind of a workout phase (`phase.type`). -/
inductive PhaseType where
  | setup
  | warmup
  | work
  | rest
  | longRest
deriving DecidableEq, Repr

/-- Value of the string field `workoutState.currentPhase`. -/
inductive PhaseLabel where
  | ready
  | setup
  | warmup
  | work
  | rest
  | longRest
  | complete
deriving DecidableEq, Repr

/-- Injection of a phase kind into the `currentPhase` label. -/
def PhaseType.toLabel : PhaseType → PhaseLabel
  | .setup => .setup
  | .warmup => .warmup
  | .work => .work
  | .rest => .rest
  | .longRest => .longRest

/-- One phase object pushed by the sequence builders.  Fields the source
omits on some phase kinds (`person`, `nextSet`) default to `0`, mirroring
the `phase.set || 0` style reads in `loadCurrentPhase`.  `duration` is in
seconds, as configured. -/
structure Phase where
  type : PhaseType
  duration : Int
  round : Int
  set : Int
  nextSet : Int := 0
  person : Int := 0
deriving DecidableEq, Repr

/-- `workoutState.config`, as produced by `loadConfigFromForm` (all fields
integers; fields unused by a mode are `0` there). -/
structure WorkoutConfig where
  setupDuration : Int
  warmupDuration : Int
  workDuration : Int
  restDuration : Int
  longRestDuration : Int
  setsPerRound : Int
  numberOfRounds : Int
  numberOfPeople : Int
deriving DecidableEq, Repr

/-- The `work`/`rest` phases pushed for one set of one round by
`buildPhaseSequence` (`set` is 1-based). -/
def setPhases (cfg : WorkoutConfig) (round set : Int) : List Phase :=
  { type := .work, duration := cfg.workDuration, round := round, set := set } ::
    (if set < cfg.setsPerRound ∧ 0 < cfg.restDuration then
      [{ type := .rest, duration := cfg.restDuration, round := round,
         set := set, nextSet := set + 1 }]
    else [])

/-- All phases pushed for one round (1-based) by `buildPhaseSequence`:
the work/rest pairs of every set, then a long rest unless this is the
last round or long rests are disabled. -/
def roundPhases (cfg : WorkoutConfig) (round : Int) : List Phase :=
  (List.range cfg.setsPerRound.toNat).flatMap (fun s => setPhases cfg round (s + 1)) ++
    (if round < cfg.numberOfRounds ∧ 0 < cfg.longRestDuration then
      [{ type := .longRest, duration := cfg.longRestDuration, round := round, set := 0 }]
    else [])

/-- `buildPhaseSequence` (interval mode): optional setup, optional warmup,
then the rounds in order; phases with configured duration `0` are omitted
entirely. -/
def buildPhaseSequence (cfg : WorkoutConfig) : List Phase :=
  (if 0 < cfg.setupDuration then
    [{ type := .setup, duration := cfg.setupDuration, round := 0, set := 0 }]
  else []) ++
  (if 0 < cfg.warmupDuration then
    [{ type := .warmup, duration := cfg.warmupDuration, round := 0, set := 0 }]
  else []) ++
  (List.range cfg.numberOfRounds.toNat).flatMap (fun r => roundPhases cfg (r + 1))

/-- `buildHeadToHeadSequence`: optional setup, then for each round every
person works consecutively; no rest phases anywhere. -/
def buildHeadToHeadSequence (cfg : WorkoutConfig) : List Phase :=
  (if 0 < cfg.setupDuration then
    [{ type := .setup, duration := cfg.setupDuration, round := 0, person := 0, set := 0 }]
  else []) ++
  (List.range cfg.numberOfRounds.toNat).flatMap (fun r =>
    (List.range cfg.numberOfPeople.toNat).map (fun p =>
      { type := .work, duration := cfg.workDuration, round := r + 1,
        person := p + 1, set := 0 }))

/-- `sequence.reduce((sum, phase) => sum + phase.duration, 0)`: the total
workout time computed by the builders (in seconds). -/
def totalOf (seq : List Phase) : Int :=
  seq.foldl (fun sum phase => sum + phase.duration) 0

/-- Discrete cues emitted towards the audio/vibration/display collaborators.
`phaseComplete` is the end beep + vibration fired by `updateTimer` at a
phase boundary; `phaseLoaded` marks `loadCurrentPhase` being invoked for
the next phase inside the settle callback; `personBeep` / `roundStart` are
the extra cues the settle callback plays before loading; `workoutCompleted`
is the cue of `completeWorkout`; `started` the start beep. -/
inductive Notif where
  | started
  | phaseComplete
  | phaseLoaded
  | personBeep
  | roundStart
  | workoutCompleted
deriving DecidableEq, Repr

/-- One entry of `workoutState.lapTimes`: `{ lapNumber, time, lapDuration }`
(`time` is the cumulative elapsed time at the lap, in centiseconds). -/
structure LapRecord where
  lapNumber : Int
  time : Int
  lapDuration : Int
deriving DecidableEq, Repr

/-- The mutable run state of the workout timer (`workoutState` minus the
DOM / settings / breathing fields).  `pending` is the FIFO queue of settle
callbacks currently scheduled via `setTimeout`, each holding its captured
`nextIndex`. -/
structure WorkoutState where
  config : WorkoutConfig
  workoutMode : Mode
  currentPhase : PhaseLabel
  currentRound : Int
  currentSet : Int
  nextSet : Int
  currentPerson : Int
  timeRemaining : Int
  totalWorkoutTime : Int
  elapsedTime : Int
  lapTimes : List LapRecord
  lapStartTime : Int
  isPaused : Bool
  isRunning : Bool
  isCompleting : Bool
  isTransitioning : Bool
  phaseSequence : List Phase
  currentPhaseIndex : Int
  pending : List Int
deriving DecidableEq, Repr

/-- `completeWorkout`: guarded by `isCompleting`; stops the run, labels the
phase `complete` and emits the completion cue (the follow-up confirm
dialog is UI and out of scope). -/
def completeWorkout (s : WorkoutState) : WorkoutState × List Notif :=
  if s.isCompleting then (s, [])
  else
    ({ s with isCompleting := true, isRunning := false, currentPhase := .complete },
      [.workoutCompleted])

/-- `loadCurrentPhase`: validates the index, then copies the phase fields
into the run state; `timeRemaining` is the phase duration converted to
centiseconds.  An invalid index or missing phase forces completion. -/
def loadCurrentPhase (s : WorkoutState) : WorkoutState × List Notif :=
  if s.currentPhaseIndex < 0 ∨ (s.phaseSequence.length : Int) ≤ s.currentPhaseIndex then
    completeWorkout s
  else
    match s.phaseSequence.get? s.currentPhaseIndex.toNat with
    | none => completeWorkout s
    | some phase =>
      ({ s with
          currentPhase := phase.type.toLabel
          timeRemaining := 100 * phase.duration
          currentRound := phase.round
          currentSet := phase.set
          nextSet := phase.nextSet
          currentPerson := phase.person }, [])

/-- `updateTimer`: the body of the 10 ms interval.  No-op unless running,
unpaused and not mid-transition.  Stopwatch mode only counts up.  Otherwise
one tick quantum is subtracted/added (`wasComplete` read first), the clock
is clamped at zero, and the first tick that reaches zero fires the
phase-complete cue, raises `isTransitioning` and schedules the settle
callback with the captured `nextIndex`. -/
def updateTimer (s : WorkoutState) : WorkoutState × List Notif :=
  if ¬s.isRunning ∨ s.isPaused ∨ s.isTransitioning then (s, [])
  else if s.workoutMode = .stopwatch then
    ({ s with elapsedTime := s.elapsedTime + 1 }, [])
  else
    let wasComplete := s.timeRemaining ≤ 0
    let s1 :=
      if ¬wasComplete then
        { s with timeRemaining := s.timeRemaining - 1, elapsedTime := s.elapsedTime + 1 }
      else s
    let s2 := if s1.timeRemaining < 0 then { s1 with timeRemaining := 0 } else s1
    if ¬wasComplete ∧ s2.timeRemaining ≤ 0 then
      ({ s2 with
          isTransitioning := true
          pending := s2.pending ++ [s2.currentPhaseIndex + 1] }, [.phaseComplete])
    else (s2, [])

/-- Body of the settle callback scheduled by `updateTimer`, with its
captured `nextIndex`: bail out (clearing `isTransitioning`) if the run
was stopped meanwhile; otherwise advance the index, clear the flag, play
the person/round cues and load the next phase, or complete the workout
once the index runs past the end. -/
def settleBody (s : WorkoutState) (nextIndex : Int) : WorkoutState × List Notif :=
  if ¬s.isRunning then ({ s with isTransitioning := false }, [])
  else
    let s1 := { s with currentPhaseIndex := nextIndex, isTransitioning := false }
    if nextIndex < (s1.phaseSequence.length : Int) then
      match s1.phaseSequence.get? nextIndex.toNat with
      | none => completeWorkout s1
      | some nextPhase =>
        let cues :=
          if s1.workoutMode = .headToHead ∧ nextPhase.type = .work then
            [Notif.personBeep]
          else if s1.workoutMode = .normal ∧ nextPhase.type = .work ∧
              nextPhase.set = 1 ∧ s1.currentRound < nextPhase.round then
            [Notif.roundStart]
          else []
        let r := loadCurrentPhase s1
        (r.1, cues ++ [Notif.phaseLoaded] ++ r.2)
    else completeWorkout s1

/-- Delivery of the oldest scheduled settle callback by the event loop
(`setTimeout` firing 500 ms after it was scheduled); a no-op when nothing
is scheduled. -/
def settleFire (s : WorkoutState) : WorkoutState × List Notif :=
  match s.pending with
  | [] => (s, [])
  | j :: rest => settleBody { s with pending := rest } j

/-- `resetTimer`: clears the tick interval and every run field back to the
ready state.  The source does **not** cancel the pending `setTimeout`
settle callback, so `pending` survives a reset. -/
def resetTimer (s : WorkoutState) : WorkoutState :=
  { s with
      isRunning := false
      isPaused := false
      isCompleting := false
      isTransitioning := false
      currentPhase := .ready
      currentPhaseIndex := 0
      currentRound := 0
      currentSet := 0
      nextSet := 0
      currentPerson := 0
      timeRemaining := 0
      elapsedTime := 0
      lapTimes := []
      lapStartTime := 0 }

/-- `pauseTimer`. -/
def pauseTimer (s : WorkoutState) : WorkoutState :=
  if ¬s.isRunning then s else { s with isPaused := true }

/-- `resumeTimer`. -/
def resumeTimer (s : WorkoutState) : WorkoutState :=
  if ¬s.isRunning then s else { s with isPaused := false }

/-- The configuration errors `startTimer` reports via `alert`. -/
inductive StartError where
  | workDurationNonpositive
  | countsNonpositive
  | emptySequence
deriving DecidableEq, Repr

/-- `startStopwatch`: marks running, keeps any accumulated `elapsedTime`
(`workoutState.elapsedTime || 0`) and anchors the lap mark there. -/
def startStopwatch (s : WorkoutState) : WorkoutState × List Notif :=
  ({ s with isRunning := true, isPaused := false, lapStartTime := s.elapsedTime },
    [.started])

/-- `startTimer` (the configuration is already in `s.config`; reading the
form is DOM plumbing).  Stopwatch mode delegates; otherwise the mode's
validation runs first and returns with no state change on failure; then
the builder runs (assigning `phaseSequence`, index and total exactly as
the source mutates them before the emptiness check), the empty sequence is
rejected, and a valid run initialises the indices, loads phase 0 and plays
the start cue. -/
def startTimer (s : WorkoutState) : WorkoutState × Option StartError × List Notif :=
  if s.workoutMode = .stopwatch then
    let r := startStopwatch s
    (r.1, none, r.2)
  else if s.config.workDuration ≤ 0 then
    (s, some .workDurationNonpositive, [])
  else if (if s.workoutMode = .headToHead then
            s.config.numberOfPeople ≤ 0 ∨ s.config.numberOfRounds ≤ 0
          else s.config.setsPerRound ≤ 0 ∨ s.config.numberOfRounds ≤ 0) then
    (s, some .countsNonpositive, [])
  else
    let seq :=
      if s.workoutMode = .headToHead then buildHeadToHeadSequence s.config
      else buildPhaseSequence s.config
    let s1 := { s with
        phaseSequence := seq
        currentPhaseIndex := 0
        totalWorkoutTime := totalOf seq }
    if s1.phaseSequence.length = 0 then (s1, some .emptySequence, [])
    else
      let s2 := { s1 with
          isRunning := true
          isPaused := false
          currentPhaseIndex := 0
          elapsedTime := 0 }
      let r := loadCurrentPhase s2
      (r.1, none, r.2 ++ [Notif.started])

/-- `recordLap`: only meaningful for a running stopwatch; appends the lap
record and moves the lap mark to the current elapsed time. -/
def recordLap (s : WorkoutState) : WorkoutState :=
  if s.workoutMode ≠ .stopwatch ∨ ¬s.isRunning then s
  else
    { s with
        lapTimes := s.lapTimes ++
          [{ lapNumber := (s.lapTimes.length : Int) + 1
             time := s.elapsedTime
             lapDuration := s.elapsedTime - s.lapStartTime }]
        lapStartTime := s.elapsedTime }

/-- Kind of a breathing phase. -/
inductive BreathPhaseType where
  | breathIn
  | inhaledHold
  | breathOut
  | exhaledHold
deriving DecidableEq, Repr

/-- Value of the string field `workoutState.currentBreathingPhase`. -/
inductive BreathLabel where
  | ready
  | breathIn
  | inhaledHold
  | breathOut
  | exhaledHold
deriving DecidableEq, Repr

/-- Injection of a breathing phase kind into the label. -/
def BreathPhaseType.toLabel : BreathPhaseType → BreathLabel
  | .breathIn => .breathIn
  | .inhaledHold => .inhaledHold
  | .breathOut => .breathOut
  | .exhaledHold => .exhaledHold

/-- One phase object of the breathing sequence (`duration` in seconds). -/
structure BreathPhase where
  type : BreathPhaseType
  duration : Int
deriving DecidableEq, Repr

/-- `workoutState.breathingConfig`. -/
structure BreathingConfig where
  breathIn : Int
  inhaledHold : Int
  breathOut : Int
  exhaledHold : Int
deriving DecidableEq, Repr

/-- `loadBreathingConfigFromForm`: each field is `parseInt(input) ||
default`, with defaults 4 / 0 / 4 / 0.  A `none` argument models an
unparsable field (`parseInt` returning `NaN`). -/
def loadBreathingConfigFromForm (breathInV inhaledHoldV breathOutV exhaledHoldV :
    Option Int) : BreathingConfig :=
  { breathIn := jsOrInt breathInV 4
    inhaledHold := jsOrInt inhaledHoldV 0
    breathOut := jsOrInt breathOutV 4
    exhaledHold := jsOrInt exhaledHoldV 0 }

/-- `buildBreathingSequence`: breath-in → inhaled-hold → breath-out →
exhaled-hold, each included only when its configured duration is
positive. -/
def buildBreathingSequence (cfg : BreathingConfig) : List BreathPhase :=
  (if 0 < cfg.breathIn then [{ type := .breathIn, duration := cfg.breathIn }] else []) ++
  (if 0 < cfg.inhaledHold then [{ type := .inhaledHold, duration := cfg.inhaledHold }] else []) ++
  (if 0 < cfg.breathOut then [{ type := .breathOut, duration := cfg.breathOut }] else []) ++
  (if 0 < cfg.exhaledHold then [{ type := .exhaledHold, duration := cfg.exhaledHold }] else [])

/-- The breathing half of `workoutState`, with the same FIFO model of the
scheduled settle callbacks as `WorkoutState.pending`. -/
structure BreathingState where
  breathingConfig : BreathingConfig
  currentBreathingPhase : BreathLabel
  breathingTimeRemaining : Int
  breathingPhaseSequence : List BreathPhase
  currentBreathingPhaseIndex : Int
  breathingIsPaused : Bool
  breathingIsRunning : Bool
  breathingIsTransitioning : Bool
  breathingPending : List Int
deriving DecidableEq, Repr

/-- `resetBreathingTimer`: back to ready; like `resetTimer`, it does not
cancel a scheduled settle callback. -/
def resetBreathingTimer (s : BreathingState) : BreathingState :=
  { s with
      breathingIsRunning := false
      breathingIsPaused := false
      breathingIsTransitioning := false
      currentBreathingPhase := .ready
      currentBreathingPhaseIndex := 0
      breathingTimeRemaining := 0 }

/-- `loadBreathingPhase`: an out-of-range index wraps to 0 (continuous
looping); a phase missing even then (empty sequence) resets the machine;
otherwise the phase is loaded with its duration in centiseconds. -/
def loadBreathingPhase (s : BreathingState) : BreathingState :=
  let s1 :=
    if s.currentBreathingPhaseIndex < 0 ∨
        (s.breathingPhaseSequence.length : Int) ≤ s.currentBreathingPhaseIndex then
      { s with currentBreathingPhaseIndex := 0 }
    else s
  match s1.breathingPhaseSequence.get? s1.currentBreathingPhaseIndex.toNat with
  | none => resetBreathingTimer s1
  | some phase =>
    { s1 with
        currentBreathingPhase := phase.type.toLabel
        breathingTimeRemaining := 100 * phase.duration }

/-- `updateBreathingTimer`: identical tick discipline to `updateTimer`,
except that the scheduled next index wraps modulo the sequence length and
there is no completion path. -/
def updateBreathingTimer (s : BreathingState) : BreathingState × List Notif :=
  if ¬s.breathingIsRunning ∨ s.breathingIsPaused ∨ s.breathingIsTransitioning then (s, [])
  else
    let wasComplete := s.breathingTimeRemaining ≤ 0
    let s1 :=
      if ¬wasComplete then { s with breathingTimeRemaining := s.breathingTimeRemaining - 1 }
      else s
    let s2 :=
      if s1.breathingTimeRemaining < 0 then { s1 with breathingTimeRemaining := 0 } else s1
    if ¬wasComplete ∧ s2.breathingTimeRemaining ≤ 0 then
      ({ s2 with
          breathingIsTransitioning := true
          breathingPending := s2.breathingPending ++
            [(s2.currentBreathingPhaseIndex + 1) % (s2.breathingPhaseSequence.length : Int)] },
        [.phaseComplete])
    else (s2, [])

/-- Body of the breathing settle callback with its captured (already
wrapped) next index. -/
def breathingSettleBody (s : BreathingState) (nextIndex : Int) : BreathingState :=
  if ¬s.breathingIsRunning then { s with breathingIsTransitioning := false }
  else
    loadBreathingPhase
      { s with currentBreathingPhaseIndex := nextIndex, breathingIsTransitioning := false }

/-- Delivery of the oldest scheduled breathing settle callback. -/
def breathingSettleFire (s : BreathingState) : BreathingState :=
  match s.breathingPending with
  | [] => s
  | j :: rest => breathingSettleBody { s with breathingPending := rest } j

/-- `startBreathingTimer` (configuration already loaded into the state):
rejects a configuration whose breath-in and breath-out are both
non-positive, builds the sequence (assigning it before the emptiness
check, as the source does), rejects an empty sequence, then marks running
and loads phase 0. -/
def startBreathingTimer (s : BreathingState) :
    BreathingState × Option StartError × List Notif :=
  if s.breathingConfig.breathIn ≤ 0 ∧ s.breathingConfig.breathOut ≤ 0 then
    (s, some .workDurationNonpositive, [])
  else
    let s1 := { s with
        breathingPhaseSequence := buildBreathingSequence s.breathingConfig
        currentBreathingPhaseIndex := 0 }
    if s1.breathingPhaseSequence.length = 0 then (s1, some .emptySequence, [])
    else
      let s2 := { s1 with
          breathingIsRunning := true
          breathingIsPaused := false
          currentBreathingPhaseIndex := 0
          breathingIsTransitioning := false }
      (loadBreathingPhase s2, none, [Notif.started])

/-! ## Characterisation lemmas for `updateTimer` -/

/-- A tick is a no-op when the machine is stopped, paused or
mid-transition. -/
lemma updateTimer_noop (s : WorkoutState)
    (h : s.isRunning = false ∨ s.isPaused = true ∨ s.isTransitioning = true) :
    updateTimer s = (s, []) := by
  unfold updateTimer
  rcases h with h | h | h <;> rw [if_pos (by simp [h])]

/-- A stopwatch tick only counts elapsed time up. -/
lemma updateTimer_stopwatch (s : WorkoutState) (h1 : s.isRunning = true)
    (h2 : s.isPaused = false) (h3 : s.isTransitioning = false)
    (h4 : s.workoutMode = .stopwatch) :
    updateTimer s = ({ s with elapsedTime := s.elapsedTime + 1 }, []) := by
  unfold updateTimer
  rw [if_neg (by simp [h1, h2, h3]), if_pos h4]

/-- A mid-phase tick (more than one quantum left) decrements the clock and
increments elapsed time, and nothing else. -/
lemma updateTimer_decr (s : WorkoutState) (h1 : s.isRunning = true)
    (h2 : s.isPaused = false) (h3 : s.isTransitioning = false)
    (h4 : s.workoutMode ≠ .stopwatch) (h5 : 1 < s.timeRemaining) :
    updateTimer s =
      ({ s with timeRemaining := s.timeRemaining - 1, elapsedTime := s.elapsedTime + 1 },
        []) := by
  unfold updateTimer
  rw [if_neg (by simp [h1, h2, h3]), if_neg h4]
  simp only []
  rw [if_pos (show ¬(s.timeRemaining ≤ 0) by omega)]
  dsimp only
  rw [if_neg (show ¬(s.timeRemaining - 1 < 0) by omega)]
  dsimp only
  rw [if_neg (show ¬(¬(s.timeRemaining ≤ 0) ∧ s.timeRemaining - 1 ≤ 0) by omega)]

/-- The boundary tick (exactly one quantum left): the clock reaches zero,
the phase-complete cue fires, `isTransitioning` is raised and the settle
callback is scheduled with the captured next index. -/
lemma updateTimer_boundary (s : WorkoutState) (h1 : s.isRunning = true)
    (h2 : s.isPaused = false) (h3 : s.isTransitioning = false)
    (h4 : s.workoutMode ≠ .stopwatch) (h5 : s.timeRemaining = 1) :
    updateTimer s =
      ({ s with
          timeRemaining := 0
          elapsedTime := s.elapsedTime + 1
          isTransitioning := true
          pending := s.pending ++ [s.currentPhaseIndex + 1] },
        [.phaseComplete]) := by
  unfold updateTimer
  rw [if_neg (by simp [h1, h2, h3]), if_neg h4]
  simp only []
  rw [if_pos (show ¬(s.timeRemaining ≤ 0) by omega)]
  dsimp only
  rw [if_neg (show ¬(s.timeRemaining - 1 < 0) by omega)]
  dsimp only
  rw [if_pos (show ¬(s.timeRemaining ≤ 0) ∧ s.timeRemaining - 1 ≤ 0 by omega)]
  congr 3
  omega

/-- A tick on an exhausted clock (`timeRemaining = 0`, the value every
boundary leaves behind) does nothing at all: the `wasComplete` guard makes
it a no-op and in particular no cue fires. -/
lemma updateTimer_exhausted (s : WorkoutState) (h4 : s.workoutMode ≠ .stopwatch)
    (h5 : s.timeRemaining = 0) :
    updateTimer s = (s, []) := by
  unfold updateTimer
  by_cases hg : ¬s.isRunning ∨ s.isPaused ∨ s.isTransitioning
  · rw [if_pos hg]
  · rw [if_neg hg, if_neg h4]
    simp only []
    rw [if_neg (show ¬¬(s.timeRemaining ≤ 0) by omega)]
    rw [if_neg (show ¬(s.timeRemaining < 0) by omega)]
    rw [if_neg (show ¬(¬(s.timeRemaining ≤ 0) ∧ s.timeRemaining ≤ 0) by omega)]

/-- A tick on a (unreachable) negative clock only clamps it to zero and
fires nothing. -/
lemma updateTimer_negative (s : WorkoutState) (h1 : s.isRunning = true)
    (h2 : s.isPaused = false) (h3 : s.isTransitioning = false)
    (h4 : s.workoutMode ≠ .stopwatch) (h5 : s.timeRemaining < 0) :
    updateTimer s = ({ s with timeRemaining := 0 }, []) := by
  unfold updateTimer
  rw [if_neg (by simp [h1, h2, h3]), if_neg h4]
  simp only []
  rw [if_neg (show ¬¬(s.timeRemaining ≤ 0) by omega)]
  rw [if_pos h5]
  dsimp only
  rw [if_neg (show ¬(¬(s.timeRemaining ≤ 0) ∧ (0 : Int) ≤ 0) by omega)]

/-- The source's initial `workoutState.config` literal. -/
def defaultConfig : WorkoutConfig :=
  { setupDuration := 10, warmupDuration := 0, workDuration := 30, restDuration := 10,
    longRestDuration := 60, setsPerRound := 4, numberOfRounds := 1, numberOfPeople := 0 }

/-- The ready state the app starts in (and that `resetTimer` returns to),
for a given configuration and mode. -/
def mkReadyState (cfg : WorkoutConfig) (mode : Mode) : WorkoutState :=
  { config := cfg, workoutMode := mode, currentPhase := .ready, currentRound := 0,
    currentSet := 0, nextSet := 0, currentPerson := 0, timeRemaining := 0,
    totalWorkoutTime := 0, elapsedTime := 0, lapTimes := [], lapStartTime := 0,
    isPaused := false, isRunning := false, isCompleting := false, isTransitioning := false,
    phaseSequence := [], currentPhaseIndex := 0, pending := [] }

/-! ## Claim theorems: tick semantics -/

/-- C3: `tick(Δt)` is a no-op when the machine is not running, is paused,
or is mid-transition; otherwise, while `timeRemaining` is positive, each
tick decrements `timeRemaining` by exactly one tick quantum and increments
`elapsedTime` by exactly one quantum, and `timeRemaining` never goes
negative (it is clamped at zero). -/
theorem updateTimer_tick_semantics (s : WorkoutState) :
    (s.isRunning = false ∨ s.isPaused = true ∨ s.isTransitioning = true →
      updateTimer s = (s, [])) ∧
    (s.isRunning = true → s.isPaused = false → s.isTransitioning = false →
      s.workoutMode ≠ .stopwatch → 0 < s.timeRemaining →
      (updateTimer s).1.timeRemaining = s.timeRemaining - 1 ∧
      (updateTimer s).1.elapsedTime = s.elapsedTime + 1) ∧
    (0 ≤ s.timeRemaining → 0 ≤ (updateTimer s).1.timeRemaining) := by
  refine ⟨fun h => updateTimer_noop s h, fun h1 h2 h3 h4 h5 => ?_, fun h0 => ?_⟩
  · rcases lt_or_eq_of_le (show (1 : Int) ≤ s.timeRemaining by omega) with hgt | heq
    · rw [updateTimer_decr s h1 h2 h3 h4 hgt]
      exact ⟨rfl, rfl⟩
    · rw [updateTimer_boundary s h1 h2 h3 h4 heq.symm]
      refine ⟨?_, rfl⟩
      dsimp only
      omega
  · by_cases h1 : s.isRunning = true
    · by_cases h2 : s.isPaused = false
      · by_cases h3 : s.isTransitioning = false
        · by_cases h4 : s.workoutMode = .stopwatch
          · rw [updateTimer_stopwatch s h1 h2 h3 h4]
            exact h0
          · rcases lt_or_eq_of_le h0 with hpos | hzero
            · rcases lt_or_eq_of_le (show (1 : Int) ≤ s.timeRemaining by omega)
                with hgt | heq
              · rw [updateTimer_decr s h1 h2 h3 h4 hgt]; dsimp only; omega
              · rw [updateTimer_boundary s h1 h2 h3 h4 heq.symm]
            · rw [updateTimer_exhausted s h4 hzero.symm]; exact h0
        · rw [updateTimer_noop s (Or.inr (Or.inr (by simpa using h3)))]; exact h0
      · rw [updateTimer_noop s (Or.inr (Or.inl (by simpa using h2)))]; exact h0
    · rw [updateTimer_noop s (Or.inl (by simpa using h1))]; exact h0

/-- Closed witness for `updateTimer_tick_semantics` at a concrete running
state. -/
theorem updateTimer_tick_semantics_witness :
    (updateTimer { mkReadyState defaultConfig Mode.normal with
        isRunning := true, timeRemaining := 5, elapsedTime := 7 }).1.timeRemaining = 4 ∧
    (updateTimer { mkReadyState defaultConfig Mode.normal with
        isRunning := true, timeRemaining := 5, elapsedTime := 7 }).1.elapsedTime = 8 :=
  (updateTimer_tick_semantics _).2.1 rfl rfl rfl (by decide) (by decide)

/-- C1: exactly one phase-complete cue per phase boundary: a tick while
`isTransitioning` is raised is a complete no-op; the boundary tick (the
one that drives `timeRemaining` from positive to zero, i.e. from one
quantum) emits exactly one `phaseComplete` and raises `isTransitioning`;
a tick while `timeRemaining` is already ≤ 0 emits nothing, as does any
tick strictly before the boundary. -/
theorem updateTimer_one_phaseComplete_per_boundary (s : WorkoutState) :
    (s.isTransitioning = true → updateTimer s = (s, [])) ∧
    (s.isRunning = true → s.isPaused = false → s.isTransitioning = false →
      s.workoutMode ≠ .stopwatch → s.timeRemaining = 1 →
      (updateTimer s).2 = [.phaseComplete] ∧
      (updateTimer s).1.isTransitioning = true) ∧
    (s.workoutMode ≠ .stopwatch → s.timeRemaining ≤ 0 → (updateTimer s).2 = []) ∧
    (1 < s.timeRemaining → (updateTimer s).2 = []) := by
  refine ⟨fun h => updateTimer_noop s (Or.inr (Or.inr h)), fun h1 h2 h3 h4 h5 => ?_,
    fun h4 h0 => ?_, fun hgt => ?_⟩
  · rw [updateTimer_boundary s h1 h2 h3 h4 h5]
    exact ⟨rfl, rfl⟩
  · by_cases h1 : s.isRunning = true
    · by_cases h2 : s.isPaused = false
      · by_cases h3 : s.isTransitioning = false
        · rcases lt_or_eq_of_le h0 with hneg | hzero
          · rw [updateTimer_negative s h1 h2 h3 h4 hneg]
          · rw [updateTimer_exhausted s h4 hzero]
        · rw [updateTimer_noop s (Or.inr (Or.inr (by simpa using h3)))]
      · rw [updateTimer_noop s (Or.inr (Or.inl (by simpa using h2)))]
    · rw [updateTimer_noop s (Or.inl (by simpa using h1))]
  · by_cases h1 : s.isRunning = true
    · by_cases h2 : s.isPaused = false
      · by_cases h3 : s.isTransitioning = false
        · by_cases h4 : s.workoutMode = .stopwatch
          · rw [updateTimer_stopwatch s h1 h2 h3 h4]
          · rw [updateTimer_decr s h1 h2 h3 h4 hgt]
        · rw [updateTimer_noop s (Or.inr (Or.inr (by simpa using h3)))]
      · rw [updateTimer_noop s (Or.inr (Or.inl (by simpa using h2)))]
    · rw [updateTimer_noop s (Or.inl (by simpa using h1))]

/-- Closed witness for `updateTimer_one_phaseComplete_per_boundary`: the
boundary tick of a concrete running state fires exactly one cue, and the
following tick (now mid-transition) is a no-op. -/
theorem updateTimer_one_phaseComplete_per_boundary_witness :
    ((updateTimer { mkReadyState defaultConfig Mode.normal with
        isRunning := true, timeRemaining := 1 }).2 = [.phaseComplete] ∧
      (updateTimer { mkReadyState defaultConfig Mode.normal with
        isRunning := true, timeRemaining := 1 }).1.isTransitioning = true) ∧
    updateTimer { mkReadyState defaultConfig Mode.normal with
        isRunning := true, isTransitioning := true } =
      ({ mkReadyState defaultConfig Mode.normal with
        isRunning := true, isTransitioning := true }, []) :=
  ⟨(updateTimer_one_phaseComplete_per_boundary _).2.1 rfl rfl rfl (by decide) (by decide),
    (updateTimer_one_phaseComplete_per_boundary _).1 rfl⟩

/-! ## Stopwatch and lap tracking -/

/-- `n` consecutive deliveries of the 10 ms interval (the state part of
`updateTimer`, iterated). -/
def tickSteps (n : Nat) (s : WorkoutState) : WorkoutState :=
  (fun st => (updateTimer st).1)^[n] s

/-- `n` stopwatch ticks just add `n` centiseconds of elapsed time. -/
lemma tickSteps_stopwatch (n : Nat) : ∀ s : WorkoutState, s.isRunning = true →
    s.isPaused = false → s.isTransitioning = false → s.workoutMode = .stopwatch →
    tickSteps n s = { s with elapsedTime := s.elapsedTime + n } := by
  induction n with
  | zero =>
    intro s h1 h2 h3 h4
    simp [tickSteps]
  | succ n ih =>
    intro s h1 h2 h3 h4
    unfold tickSteps
    rw [Function.iterate_succ_apply]
    rw [updateTimer_stopwatch s h1 h2 h3 h4]
    rw [show (fun st : WorkoutState => (updateTimer st).1)^[n]
          { s with elapsedTime := s.elapsedTime + 1 } =
        tickSteps n { s with elapsedTime := s.elapsedTime + 1 } from rfl]
    rw [ih { s with elapsedTime := s.elapsedTime + 1 } h1 h2 h3 h4]
    congr 1
    push_cast
    ring

/-- `recordLap` ignores calls outside a running stopwatch. -/
lemma recordLap_noop (s : WorkoutState)
    (h : s.workoutMode ≠ .stopwatch ∨ s.isRunning = false) :
    recordLap s = s := by
  unfold recordLap
  rcases h with h | h <;> rw [if_pos (by simp [h])]

/-- `recordLap` on a running stopwatch appends the record and moves the
lap mark. -/
lemma recordLap_run (s : WorkoutState) (h1 : s.workoutMode = .stopwatch)
    (h2 : s.isRunning = true) :
    recordLap s =
      { s with
          lapTimes := s.lapTimes ++
            [{ lapNumber := (s.lapTimes.length : Int) + 1
               time := s.elapsedTime
               lapDuration := s.elapsedTime - s.lapStartTime }]
          lapStartTime := s.elapsedTime } := by
  unfold recordLap
  rw [if_neg (by simp [h1, h2])]

/-- The stopwatch run of the spec's example, staged: start fresh, tick to
12.3 s and lap. -/
def lapStage1 : WorkoutState :=
  recordLap (tickSteps 1230 (startStopwatch (mkReadyState defaultConfig Mode.stopwatch)).1)

/-- ... tick on to 27.0 s and lap ... -/
def lapStage2 : WorkoutState := recordLap (tickSteps 1470 lapStage1)

/-- ... tick on to 40.5 s and lap. -/
def lapStage3 : WorkoutState := recordLap (tickSteps 1350 lapStage2)

lemma lapStage1_eq :
    lapStage1 = { mkReadyState defaultConfig Mode.stopwatch with
      isRunning := true, elapsedTime := 1230, lapStartTime := 1230,
      lapTimes := [{ lapNumber := 1, time := 1230, lapDuration := 1230 }] } := by
  unfold lapStage1
  rw [tickSteps_stopwatch 1230 _ rfl rfl rfl rfl]
  rw [recordLap_run _ rfl rfl]
  decide

lemma lapStage2_eq :
    lapStage2 = { mkReadyState defaultConfig Mode.stopwatch with
      isRunning := true, elapsedTime := 2700, lapStartTime := 2700,
      lapTimes := [{ lapNumber := 1, time := 1230, lapDuration := 1230 },
        { lapNumber := 2, time := 2700, lapDuration := 1470 }] } := by
  unfold lapStage2
  rw [lapStage1_eq]
  rw [tickSteps_stopwatch 1470 _ rfl rfl rfl rfl]
  rw [recordLap_run _ rfl rfl]
  decide

lemma lapStage3_eq :
    lapStage3 = { mkReadyState defaultConfig Mode.stopwatch with
      isRunning := true, elapsedTime := 4050, lapStartTime := 4050,
      lapTimes := [{ lapNumber := 1, time := 1230, lapDuration := 1230 },
        { lapNumber := 2, time := 2700, lapDuration := 1470 },
        { lapNumber := 3, time := 4050, lapDuration := 1350 }] } := by
  unfold lapStage3
  rw [lapStage2_eq]
  rw [tickSteps_stopwatch 1350 _ rfl rfl rfl rfl]
  rw [recordLap_run _ rfl rfl]
  decide

/-- C9: `recordLap` is a no-op unless the stopwatch is running; when
running it appends `{lapNumber = count+1, time = elapsedTime,
lapDuration = elapsedTime - lap mark}` and moves the lap mark to
`elapsedTime`; laps recorded at elapsed 12.3 s, 27.0 s and 40.5 s from a
fresh start have durations 12.3 s, 14.7 s and 13.5 s (1230, 1470, 1350
centiseconds). -/
theorem recordLap_semantics :
    (∀ s : WorkoutState, s.workoutMode ≠ .stopwatch ∨ s.isRunning = false →
      recordLap s = s) ∧
    (∀ s : WorkoutState, s.workoutMode = .stopwatch → s.isRunning = true →
      recordLap s =
        { s with
            lapTimes := s.lapTimes ++
              [{ lapNumber := (s.lapTimes.length : Int) + 1
                 time := s.elapsedTime
                 lapDuration := s.elapsedTime - s.lapStartTime }]
            lapStartTime := s.elapsedTime }) ∧
    lapStage3.lapTimes.map (fun l => l.lapDuration) = [1230, 1470, 1350] ∧
    lapStage3.lapTimes.map (fun l => l.time) = [1230, 2700, 4050] := by
  refine ⟨recordLap_noop, recordLap_run, ?_⟩
  rw [lapStage3_eq]
  constructor <;> decide

/-- Closed witness for `recordLap_semantics` on a concrete running
stopwatch state. -/
theorem recordLap_semantics_witness :
    recordLap { mkReadyState defaultConfig Mode.stopwatch with
        isRunning := true, elapsedTime := 250, lapStartTime := 100 } =
      { mkReadyState defaultConfig Mode.stopwatch with
          isRunning := true, elapsedTime := 250, lapStartTime := 250,
          lapTimes := [{ lapNumber := 1, time := 250, lapDuration := 150 }] } := by
  rw [recordLap_semantics.2.1 _ rfl rfl]
  decide

/-! ## Breathing form parsing (C10) -/

/-- C10: whatever the four breathing form inputs hold (`none` = unparsable,
`some n` = parsed integer, `some 0` = entered zero), the loaded breathing
config has `breathIn ≠ 0` and `breathOut ≠ 0` (zero and unparsable fall
back to the default 4), so the rejection branch of `startBreathingTimer`
(`breathIn ≤ 0 ∧ breathOut ≤ 0`) is reachable only when both are strictly
negative, never via zeros. -/
theorem breathing_form_nonzero (breathInV inhaledHoldV breathOutV exhaledHoldV : Option Int) :
    (loadBreathingConfigFromForm breathInV inhaledHoldV breathOutV exhaledHoldV).breathIn ≠ 0 ∧
    (loadBreathingConfigFromForm breathInV inhaledHoldV breathOutV exhaledHoldV).breathOut ≠ 0 ∧
    ((loadBreathingConfigFromForm breathInV inhaledHoldV breathOutV exhaledHoldV).breathIn ≤ 0 ∧
      (loadBreathingConfigFromForm breathInV inhaledHoldV breathOutV exhaledHoldV).breathOut ≤ 0 →
      (loadBreathingConfigFromForm breathInV inhaledHoldV breathOutV exhaledHoldV).breathIn < 0 ∧
      (loadBreathingConfigFromForm breathInV inhaledHoldV breathOutV exhaledHoldV).breathOut < 0) := by
  have hin : jsOrInt breathInV 4 ≠ 0 := by
    rcases breathInV with _ | n
    · decide
    · by_cases h : n = 0 <;> simp [jsOrInt, h]
  have hout : jsOrInt breathOutV 4 ≠ 0 := by
    rcases breathOutV with _ | n
    · decide
    · by_cases h : n = 0 <;> simp [jsOrInt, h]
  refine ⟨hin, hout, fun h => ⟨?_, ?_⟩⟩
  · rcases h with ⟨h1, _⟩
    rcases lt_or_eq_of_le h1 with h' | h'
    · exact h'
    · exact absurd h' hin
  · rcases h with ⟨_, h2⟩
    rcases lt_or_eq_of_le h2 with h' | h'
    · exact h'
    · exact absurd h' hout

/-- Closed witness for `breathing_form_nonzero`: a form with zeros in the
breath-in and breath-out fields still loads as 4/4, and the implication is
instantiated at genuinely negative inputs. -/
theorem breathing_form_nonzero_witness :
    (loadBreathingConfigFromForm (some 0) none (some 0) none).breathIn ≠ 0 ∧
    ((loadBreathingConfigFromForm (some (-3)) none (some (-5)) none).breathIn < 0 ∧
      (loadBreathingConfigFromForm (some (-3)) none (some (-5)) none).breathOut < 0) :=
  ⟨(breathing_form_nonzero (some 0) none (some 0) none).1,
    (breathing_form_nonzero (some (-3)) none (some (-5)) none).2.2 (by decide)⟩

/-! ## Counting phases in built sequences -/

/-- Number of phases of kind `t` in a sequence. -/
def countType (t : PhaseType) (seq : List Phase) : Nat :=
  seq.countP (fun p => decide (p.type = t))

lemma countType_append (t : PhaseType) (l1 l2 : List Phase) :
    countType t (l1 ++ l2) = countType t l1 + countType t l2 := by
  unfold countType
  exact List.countP_append _ _ _

lemma countType_if_singleton (t : PhaseType) (c : Prop) [Decidable c] (a : Phase) :
    countType t (if c then [a] else []) =
      if c ∧ a.type = t then 1 else 0 := by
  by_cases hc : c
  · rcases eq_or_ne a.type t with ht | ht <;>
      simp [countType, hc, ht, List.countP_cons]
  · simp [countType, hc]

lemma countType_flatMap_range (t : PhaseType) (f : Nat → List Phase) (n : Nat) :
    countType t ((List.range n).flatMap f) =
      ((List.range n).map (fun k => countType t (f k))).sum := by
  induction n with
  | zero => simp [countType]
  | succ n ih =>
    rw [List.range_succ, List.flatMap_append, countType_append, ih]
    simp [countType]

/-- Sum of an `if k + 1 < m` indicator over `k < n`. -/
lemma sum_indicator_range (n m : Nat) :
    ((List.range n).map (fun k => if k + 1 < m then 1 else 0)).sum = min n (m - 1) := by
  induction n with
  | zero => simp
  | succ n ih =>
    rw [List.range_succ]
    simp only [List.map_append, List.sum_append, ih, List.map_cons, List.map_nil,
      List.sum_cons, List.sum_nil]
    split_ifs with h <;> omega

lemma sum_const_range (n c : Nat) :
    ((List.range n).map (fun _ => c)).sum = n * c := by
  induction n with
  | zero => simp
  | succ n ih =>
    rw [List.range_succ]
    simp [ih, Nat.succ_mul]

lemma totalOf_eq_sum (seq : List Phase) :
    totalOf seq = (seq.map (fun p => p.duration)).sum := by
  have h : ∀ (l : List Phase) (a : Int),
      l.foldl (fun sum phase => sum + phase.duration) a =
        a + (l.map (fun p => p.duration)).sum := by
    intro l
    induction l with
    | nil => intro a; simp
    | cons x xs ih => intro a; simp [ih, add_assoc]
  simpa using h seq 0

/-! ## Head-to-head structure (C7) -/

lemma countType_h2h_work (cfg : WorkoutConfig) :
    countType .work (buildHeadToHeadSequence cfg) =
      cfg.numberOfRounds.toNat * cfg.numberOfPeople.toNat := by
  unfold buildHeadToHeadSequence
  rw [countType_append, countType_if_singleton, countType_flatMap_range]
  have hrow : ∀ k : Nat,
      countType .work ((List.range cfg.numberOfPeople.toNat).map (fun (p : Nat) =>
        ({ type := .work, duration := cfg.workDuration, round := (k : Int) + 1,
           person := (p : Int) + 1, set := 0 } : Phase))) =
        cfg.numberOfPeople.toNat := by
    intro k
    unfold countType
    rw [List.countP_map]
    simp [Function.comp_def]
  simp only [hrow]
  rw [sum_const_range]
  simp

/-- All phases of a head-to-head sequence are setup or work phases. -/
lemma h2h_no_rest (cfg : WorkoutConfig) (p : Phase)
    (hp : p ∈ buildHeadToHeadSequence cfg) :
    p.type = .setup ∨ p.type = .work := by
  unfold buildHeadToHeadSequence at hp
  rcases List.mem_append.mp hp with hp | hp
  · by_cases hc : 0 < cfg.setupDuration
    · rw [if_pos hc] at hp
      simp only [List.mem_singleton] at hp
      subst hp
      exact Or.inl rfl
    · rw [if_neg hc] at hp
      simp at hp
  · rcases List.mem_flatMap.mp hp with ⟨r, _, hp⟩
    rcases List.mem_map.mp hp with ⟨q, _, hq⟩
    subst hq
    exact Or.inr rfl

/-- The spec's head-to-head example configuration: people=3, rounds=2,
work=20, setup=5. -/
def h2hExampleConfig : WorkoutConfig :=
  { setupDuration := 5, warmupDuration := 0, workDuration := 20, restDuration := 0,
    longRestDuration := 0, setsPerRound := 0, numberOfRounds := 2, numberOfPeople := 3 }

/-- C7: a head-to-head sequence is an optional setup phase followed by the
rounds in order, one work phase per person in order, with no rest or
long-rest phases anywhere (every phase is setup or work, and with `R`
rounds and `P` people there are exactly `R*P` work phases); the example
people=3, rounds=2, work=20, setup=5 yields exactly the 7 phases below,
totalling 125 seconds, persons 1,2,3 in round 1 then 1,2,3 in round 2. -/
theorem headToHead_structure :
    (∀ (cfg : WorkoutConfig), ∀ p ∈ buildHeadToHeadSequence cfg,
      p.type ≠ .rest ∧ p.type ≠ .longRest) ∧
    (∀ cfg : WorkoutConfig, 0 ≤ cfg.numberOfRounds → 0 ≤ cfg.numberOfPeople →
      (countType .work (buildHeadToHeadSequence cfg) : Int) =
        cfg.numberOfRounds * cfg.numberOfPeople) ∧
    buildHeadToHeadSequence h2hExampleConfig =
      [{ type := .setup, duration := 5, round := 0, set := 0 },
       { type := .work, duration := 20, round := 1, set := 0, person := 1 },
       { type := .work, duration := 20, round := 1, set := 0, person := 2 },
       { type := .work, duration := 20, round := 1, set := 0, person := 3 },
       { type := .work, duration := 20, round := 2, set := 0, person := 1 },
       { type := .work, duration := 20, round := 2, set := 0, person := 2 },
       { type := .work, duration := 20, round := 2, set := 0, person := 3 }] ∧
    (buildHeadToHeadSequence h2hExampleConfig).length = 7 ∧
    totalOf (buildHeadToHeadSequence h2hExampleConfig) = 125 := by
  refine ⟨?_, ?_, by decide, by decide, by decide⟩
  · intro cfg p hp
    rcases h2h_no_rest cfg p hp with h | h <;> rw [h] <;> exact ⟨by decide, by decide⟩
  · intro cfg hR hP
    rw [countType_h2h_work]
    push_cast [Int.toNat_of_nonneg hR, Int.toNat_of_nonneg hP]
    ring

/-- Closed witness for `headToHead_structure`: the work-phase count of the
example configuration is `2 * 3`. -/
theorem headToHead_structure_witness :
    (countType .work (buildHeadToHeadSequence h2hExampleConfig) : Int) =
      h2hExampleConfig.numberOfRounds * h2hExampleConfig.numberOfPeople :=
  headToHead_structure.2.1 h2hExampleConfig (by decide) (by decide)

/-! ## Positivity of emitted phase durations (C6) -/

lemma mem_if_singleton {α : Type} {c : Prop} [Decidable c] {a p : α}
    (h : p ∈ if c then [a] else []) : c ∧ p = a := by
  by_cases hc : c
  · rw [if_pos hc] at h
    exact ⟨hc, by simpa using h⟩
  · rw [if_neg hc] at h
    simp at h

/-- Every phase of an interval sequence whose work duration validates has
positive duration. -/
lemma interval_durations_pos (cfg : WorkoutConfig) (hwork : 0 < cfg.workDuration)
    (p : Phase) (hp : p ∈ buildPhaseSequence cfg) : 0 < p.duration := by
  unfold buildPhaseSequence at hp
  rcases List.mem_append.mp hp with hp | hp
  · rcases List.mem_append.mp hp with hp | hp
    · rcases mem_if_singleton hp with ⟨hc, hpa⟩
      rw [hpa]
      exact hc
    · rcases mem_if_singleton hp with ⟨hc, hpa⟩
      rw [hpa]
      exact hc
  · rcases List.mem_flatMap.mp hp with ⟨r, _, hp⟩
    unfold roundPhases at hp
    rcases List.mem_append.mp hp with hp | hp
    · rcases List.mem_flatMap.mp hp with ⟨k, _, hp⟩
      unfold setPhases at hp
      rcases List.mem_cons.mp hp with hpa | hp
      · rw [hpa]
        exact hwork
      · rcases mem_if_singleton hp with ⟨hc, hpa⟩
        rw [hpa]
        exact hc.2
    · rcases mem_if_singleton hp with ⟨hc, hpa⟩
      rw [hpa]
      exact hc.2

/-- Every phase of a head-to-head sequence whose work duration validates
has positive duration. -/
lemma h2h_durations_pos (cfg : WorkoutConfig) (hwork : 0 < cfg.workDuration)
    (p : Phase) (hp : p ∈ buildHeadToHeadSequence cfg) : 0 < p.duration := by
  unfold buildHeadToHeadSequence at hp
  rcases List.mem_append.mp hp with hp | hp
  · rcases mem_if_singleton hp with ⟨hc, hpa⟩
    rw [hpa]
    exact hc
  · rcases List.mem_flatMap.mp hp with ⟨r, _, hp⟩
    rcases List.mem_map.mp hp with ⟨q, _, hq⟩
    rw [← hq]
    exact hwork

/-- Every phase of a breathing sequence has positive duration,
unconditionally: each of the four candidates is pushed only when its
configured duration is positive. -/
lemma breathing_durations_pos (cfg : BreathingConfig)
    (p : BreathPhase) (hp : p ∈ buildBreathingSequence cfg) : 0 < p.duration := by
  unfold buildBreathingSequence at hp
  rcases List.mem_append.mp hp with hp | hp
  · rcases List.mem_append.mp hp with hp | hp
    · rcases List.mem_append.mp hp with hp | hp <;>
        · rcases mem_if_singleton hp with ⟨hc, hpa⟩
          rw [hpa]
          exact hc
    · rcases mem_if_singleton hp with ⟨hc, hpa⟩
      rw [hpa]
      exact hc
  · rcases mem_if_singleton hp with ⟨hc, hpa⟩
    rw [hpa]
    exact hc

/-- C6: for every configuration accepted by `startTimer`'s validation
(`workDuration > 0` is the only duration it checks), every phase emitted
by the interval, head-to-head and breathing builders has strictly positive
duration — a configured duration of 0 omits the phase entirely. -/
theorem builders_emit_positive_durations (cfg : WorkoutConfig) (bcfg : BreathingConfig)
    (hwork : 0 < cfg.workDuration) :
    (∀ p ∈ buildPhaseSequence cfg, 0 < p.duration) ∧
    (∀ p ∈ buildHeadToHeadSequence cfg, 0 < p.duration) ∧
    (∀ p ∈ buildBreathingSequence bcfg, 0 < p.duration) :=
  ⟨fun p hp => interval_durations_pos cfg hwork p hp,
    fun p hp => h2h_durations_pos cfg hwork p hp,
    fun p hp => breathing_durations_pos bcfg p hp⟩

/-- Closed witness for `builders_emit_positive_durations` at the default
configuration (work duration 30, warmup and a breathing hold configured 0
and therefore omitted). -/
theorem builders_emit_positive_durations_witness :
    0 < ({ type := .setup, duration := 10, round := 0, set := 0 } : Phase).duration :=
  (builders_emit_positive_durations defaultConfig
    { breathIn := 4, inhaledHold := 0, breathOut := 4, exhaledHold := 0 } (by decide)).1
    { type := .setup, duration := 10, round := 0, set := 0 } (by decide)

/-! ## Interval-mode phase counts (C5) -/

lemma setPhases_count_work (cfg : WorkoutConfig) (r k : Int) :
    countType .work (setPhases cfg r k) = 1 := by
  unfold countType setPhases
  split_ifs with h <;> simp [List.countP_cons]

lemma setPhases_count_rest (cfg : WorkoutConfig) (r k : Int) :
    countType .rest (setPhases cfg r k) =
      if k < cfg.setsPerRound ∧ 0 < cfg.restDuration then 1 else 0 := by
  unfold countType setPhases
  split_ifs with h <;> simp [List.countP_cons]

lemma setPhases_count_longRest (cfg : WorkoutConfig) (r k : Int) :
    countType .longRest (setPhases cfg r k) = 0 := by
  unfold countType setPhases
  split_ifs with h <;> simp [List.countP_cons]

lemma setPhases_count_setup (cfg : WorkoutConfig) (r k : Int) :
    countType .setup (setPhases cfg r k) = 0 := by
  unfold countType setPhases
  split_ifs with h <;> simp [List.countP_cons]

lemma setPhases_count_warmup (cfg : WorkoutConfig) (r k : Int) :
    countType .warmup (setPhases cfg r k) = 0 := by
  unfold countType setPhases
  split_ifs with h <;> simp [List.countP_cons]

lemma roundPhases_count_work (cfg : WorkoutConfig) (r : Int) :
    countType .work (roundPhases cfg r) = cfg.setsPerRound.toNat := by
  unfold roundPhases
  rw [countType_append, countType_flatMap_range, countType_if_singleton]
  simp only [setPhases_count_work]
  rw [sum_const_range]
  simp

lemma roundPhases_count_rest (cfg : WorkoutConfig) (r : Int)
    (hrest : 0 < cfg.restDuration) :
    countType .rest (roundPhases cfg r) = cfg.setsPerRound.toNat - 1 := by
  unfold roundPhases
  rw [countType_append, countType_flatMap_range, countType_if_singleton]
  simp only [setPhases_count_rest]
  have hcongr : ∀ k ∈ List.range cfg.setsPerRound.toNat,
      (if (k : Int) + 1 < cfg.setsPerRound ∧ 0 < cfg.restDuration then (1 : Nat) else 0) =
      (if k + 1 < cfg.setsPerRound.toNat then (1 : Nat) else 0) := by
    intro k _
    by_cases h : (k : Int) + 1 < cfg.setsPerRound
    · rw [if_pos ⟨h, hrest⟩, if_pos (by omega)]
    · rw [if_neg (fun hc => h hc.1), if_neg (by omega)]
  rw [List.map_congr_left hcongr, sum_indicator_range]
  simp

lemma roundPhases_count_longRest (cfg : WorkoutConfig) (r : Int) :
    countType .longRest (roundPhases cfg r) =
      if r < cfg.numberOfRounds ∧ 0 < cfg.longRestDuration then 1 else 0 := by
  unfold roundPhases
  rw [countType_append, countType_flatMap_range, countType_if_singleton]
  simp only [setPhases_count_longRest]
  rw [sum_const_range]
  simp

lemma roundPhases_count_setup (cfg : WorkoutConfig) (r : Int) :
    countType .setup (roundPhases cfg r) = 0 := by
  unfold roundPhases
  rw [countType_append, countType_flatMap_range, countType_if_singleton]
  simp only [setPhases_count_setup]
  rw [sum_const_range]
  simp

lemma roundPhases_count_warmup (cfg : WorkoutConfig) (r : Int) :
    countType .warmup (roundPhases cfg r) = 0 := by
  unfold roundPhases
  rw [countType_append, countType_flatMap_range, countType_if_singleton]
  simp only [setPhases_count_warmup]
  rw [sum_const_range]
  simp

lemma build_count_work (cfg : WorkoutConfig) :
    countType .work (buildPhaseSequence cfg) =
      cfg.numberOfRounds.toNat * cfg.setsPerRound.toNat := by
  unfold buildPhaseSequence
  rw [countType_append, countType_append, countType_if_singleton,
    countType_if_singleton, countType_flatMap_range]
  simp only [roundPhases_count_work]
  rw [sum_const_range]
  simp

lemma build_count_rest (cfg : WorkoutConfig) (hrest : 0 < cfg.restDuration) :
    countType .rest (buildPhaseSequence cfg) =
      cfg.numberOfRounds.toNat * (cfg.setsPerRound.toNat - 1) := by
  unfold buildPhaseSequence
  rw [countType_append, countType_append, countType_if_singleton,
    countType_if_singleton, countType_flatMap_range]
  have hcongr : ∀ k ∈ List.range cfg.numberOfRounds.toNat,
      countType .rest (roundPhases cfg ((k : Int) + 1)) = cfg.setsPerRound.toNat - 1 :=
    fun k _ => roundPhases_count_rest cfg ((k : Int) + 1) hrest
  rw [List.map_congr_left hcongr, sum_const_range]
  simp

lemma build_count_longRest (cfg : WorkoutConfig) :
    countType .longRest (buildPhaseSequence cfg) =
      if 0 < cfg.longRestDuration then cfg.numberOfRounds.toNat - 1 else 0 := by
  unfold buildPhaseSequence
  rw [countType_append, countType_append, countType_if_singleton,
    countType_if_singleton, countType_flatMap_range]
  simp only [roundPhases_count_longRest]
  by_cases hlong : 0 < cfg.longRestDuration
  · rw [if_pos hlong]
    have hcongr : ∀ k ∈ List.range cfg.numberOfRounds.toNat,
        (if (k : Int) + 1 < cfg.numberOfRounds ∧ 0 < cfg.longRestDuration
          then (1 : Nat) else 0) =
        (if k + 1 < cfg.numberOfRounds.toNat then (1 : Nat) else 0) := by
      intro k _
      by_cases h : (k : Int) + 1 < cfg.numberOfRounds
      · rw [if_pos ⟨h, hlong⟩, if_pos (by omega)]
      · rw [if_neg (fun hc => h hc.1), if_neg (by omega)]
    rw [List.map_congr_left hcongr, sum_indicator_range]
    simp
  · have hcongr : ∀ k ∈ List.range cfg.numberOfRounds.toNat,
        (if (k : Int) + 1 < cfg.numberOfRounds ∧ 0 < cfg.longRestDuration
          then (1 : Nat) else 0) = 0 := by
      intro k _
      rw [if_neg (fun hc => hlong hc.2)]
    rw [List.map_congr_left hcongr, if_neg hlong, sum_const_range]
    simp

lemma build_count_setup (cfg : WorkoutConfig) :
    countType .setup (buildPhaseSequence cfg) =
      if 0 < cfg.setupDuration then 1 else 0 := by
  unfold buildPhaseSequence
  rw [countType_append, countType_append, countType_if_singleton,
    countType_if_singleton, countType_flatMap_range]
  simp only [roundPhases_count_setup]
  rw [sum_const_range]
  simp

lemma build_count_warmup (cfg : WorkoutConfig) :
    countType .warmup (buildPhaseSequence cfg) =
      if 0 < cfg.warmupDuration then 1 else 0 := by
  unfold buildPhaseSequence
  rw [countType_append, countType_append, countType_if_singleton,
    countType_if_singleton, countType_flatMap_range]
  simp only [roundPhases_count_warmup]
  rw [sum_const_range]
  simp

/-- C5: for an interval configuration with `S > 0` sets, `R > 0` rounds
and positive rest, the built sequence has exactly `R*S` work phases,
`R*(S-1)` rest phases, `R-1` long rests when long rests are enabled (none
otherwise), at most one setup and at most one warmup phase, and the
computed total duration is the sum of exactly the included phases'
durations. -/
theorem interval_sequence_counts (cfg : WorkoutConfig)
    (hS : 0 < cfg.setsPerRound) (hR : 0 < cfg.numberOfRounds)
    (hrest : 0 < cfg.restDuration) :
    (countType .work (buildPhaseSequence cfg) : Int) =
        cfg.numberOfRounds * cfg.setsPerRound ∧
    (countType .rest (buildPhaseSequence cfg) : Int) =
        cfg.numberOfRounds * (cfg.setsPerRound - 1) ∧
    (countType .longRest (buildPhaseSequence cfg) : Int) =
        (if 0 < cfg.longRestDuration then cfg.numberOfRounds - 1 else 0) ∧
    countType .setup (buildPhaseSequence cfg) ≤ 1 ∧
    countType .warmup (buildPhaseSequence cfg) ≤ 1 ∧
    totalOf (buildPhaseSequence cfg) =
      ((buildPhaseSequence cfg).map (fun p => p.duration)).sum := by
  have hScast : ((cfg.setsPerRound.toNat : Nat) : Int) = cfg.setsPerRound :=
    Int.toNat_of_nonneg hS.le
  have hRcast : ((cfg.numberOfRounds.toNat : Nat) : Int) = cfg.numberOfRounds :=
    Int.toNat_of_nonneg hR.le
  have hSpred : ((cfg.setsPerRound.toNat - 1 : Nat) : Int) = cfg.setsPerRound - 1 := by
    omega
  have hRpred : ((cfg.numberOfRounds.toNat - 1 : Nat) : Int) = cfg.numberOfRounds - 1 := by
    omega
  refine ⟨?_, ?_, ?_, ?_, ?_, totalOf_eq_sum _⟩
  · rw [build_count_work]
    push_cast [hScast, hRcast]
    ring
  · rw [build_count_rest cfg hrest, Nat.cast_mul, hRcast, hSpred]
  · rw [build_count_longRest]
    split_ifs with h
    · exact hRpred
    · rfl
  · rw [build_count_setup]
    split_ifs <;> omega
  · rw [build_count_warmup]
    split_ifs <;> omega

/-- The spec's worked interval example: setup=10, warmup=0, work=30,
rest=10, longRest=60, sets=3, rounds=2. -/
def intervalExampleConfig : WorkoutConfig :=
  { setupDuration := 10, warmupDuration := 0, workDuration := 30, restDuration := 10,
    longRestDuration := 60, setsPerRound := 3, numberOfRounds := 2, numberOfPeople := 0 }

/-- Closed witness for `interval_sequence_counts` at the worked example. -/
theorem interval_sequence_counts_witness :
    (countType .work (buildPhaseSequence intervalExampleConfig) : Int) =
      intervalExampleConfig.numberOfRounds * intervalExampleConfig.setsPerRound ∧
    (countType .rest (buildPhaseSequence intervalExampleConfig) : Int) =
      intervalExampleConfig.numberOfRounds * (intervalExampleConfig.setsPerRound - 1) :=
  ⟨(interval_sequence_counts intervalExampleConfig
      (by decide) (by decide) (by decide)).1,
    (interval_sequence_counts intervalExampleConfig
      (by decide) (by decide) (by decide)).2.1⟩

/-! ## `startTimer` validation and initialisation (C4) -/

lemma buildPhaseSequence_length_pos (cfg : WorkoutConfig)
    (hs : 0 < cfg.setsPerRound) (hr : 0 < cfg.numberOfRounds) :
    0 < (buildPhaseSequence cfg).length := by
  have h1 := build_count_work cfg
  have h2 : countType .work (buildPhaseSequence cfg) ≤ (buildPhaseSequence cfg).length :=
    List.countP_le_length _
  have hs' : 0 < cfg.setsPerRound.toNat := by omega
  have hr' : 0 < cfg.numberOfRounds.toNat := by omega
  have := Nat.mul_pos hr' hs'
  omega

lemma buildHeadToHeadSequence_length_pos (cfg : WorkoutConfig)
    (hp : 0 < cfg.numberOfPeople) (hr : 0 < cfg.numberOfRounds) :
    0 < (buildHeadToHeadSequence cfg).length := by
  have h1 := countType_h2h_work cfg
  have h2 : countType .work (buildHeadToHeadSequence cfg) ≤
      (buildHeadToHeadSequence cfg).length := List.countP_le_length _
  have hp' : 0 < cfg.numberOfPeople.toNat := by omega
  have hr' : 0 < cfg.numberOfRounds.toNat := by omega
  have := Nat.mul_pos hr' hp'
  omega

/-- `loadCurrentPhase` at index 0 of a sequence whose phase 0 exists loads
exactly that phase. -/
lemma loadCurrentPhase_zero (s : WorkoutState) (h0 : s.currentPhaseIndex = 0)
    (p : Phase) (hp : s.phaseSequence.get? 0 = some p) :
    loadCurrentPhase s =
      ({ s with
          currentPhase := p.type.toLabel
          timeRemaining := 100 * p.duration
          currentRound := p.round
          currentSet := p.set
          nextSet := p.nextSet
          currentPerson := p.person }, []) := by
  have hlen : 0 < s.phaseSequence.length := by
    rcases List.get?_eq_some.mp hp with ⟨hlt, _⟩
    omega
  unfold loadCurrentPhase
  rw [h0]
  rw [if_neg (show ¬((0 : Int) < 0 ∨ (s.phaseSequence.length : Int) ≤ 0) by omega)]
  rw [show ((0 : Int).toNat) = 0 from rfl, hp]

/-- Characterisation of a valid normal-mode start. -/
lemma startTimer_valid_normal (s : WorkoutState) (hmode : s.workoutMode = .normal)
    (hw : 0 < s.config.workDuration) (hs : 0 < s.config.setsPerRound)
    (hr : 0 < s.config.numberOfRounds)
    (p : Phase) (hp : (buildPhaseSequence s.config).get? 0 = some p) :
    startTimer s =
      ({ s with
          phaseSequence := buildPhaseSequence s.config
          totalWorkoutTime := totalOf (buildPhaseSequence s.config)
          isRunning := true
          isPaused := false
          currentPhaseIndex := 0
          elapsedTime := 0
          currentPhase := p.type.toLabel
          timeRemaining := 100 * p.duration
          currentRound := p.round
          currentSet := p.set
          nextSet := p.nextSet
          currentPerson := p.person }, none, [Notif.started]) := by
  unfold startTimer
  rw [hmode]
  rw [if_neg (show ¬(Mode.normal = Mode.stopwatch) by decide)]
  rw [if_neg (show ¬(s.config.workDuration ≤ 0) by omega)]
  rw [if_neg (show ¬(if Mode.normal = Mode.headToHead then
      s.config.numberOfPeople ≤ 0 ∨ s.config.numberOfRounds ≤ 0
    else s.config.setsPerRound ≤ 0 ∨ s.config.numberOfRounds ≤ 0) by
      rw [if_neg (by decide)]; omega)]
  simp only []
  rw [if_neg (show ¬(Mode.normal = Mode.headToHead) by decide)]
  rw [if_neg (show ¬((buildPhaseSequence s.config).length = 0) by
    have := buildPhaseSequence_length_pos s.config hs hr; omega)]
  rw [loadCurrentPhase_zero _ rfl p hp]
  rfl

/-- Characterisation of a valid head-to-head start. -/
lemma startTimer_valid_h2h (s : WorkoutState) (hmode : s.workoutMode = .headToHead)
    (hw : 0 < s.config.workDuration) (hppl : 0 < s.config.numberOfPeople)
    (hr : 0 < s.config.numberOfRounds)
    (p : Phase) (hp : (buildHeadToHeadSequence s.config).get? 0 = some p) :
    startTimer s =
      ({ s with
          phaseSequence := buildHeadToHeadSequence s.config
          totalWorkoutTime := totalOf (buildHeadToHeadSequence s.config)
          isRunning := true
          isPaused := false
          currentPhaseIndex := 0
          elapsedTime := 0
          currentPhase := p.type.toLabel
          timeRemaining := 100 * p.duration
          currentRound := p.round
          currentSet := p.set
          nextSet := p.nextSet
          currentPerson := p.person }, none, [Notif.started]) := by
  unfold startTimer
  rw [hmode]
  rw [if_neg (show ¬(Mode.headToHead = Mode.stopwatch) by decide)]
  rw [if_neg (show ¬(s.config.workDuration ≤ 0) by omega)]
  rw [if_neg (show ¬(if Mode.headToHead = Mode.headToHead then
      s.config.numberOfPeople ≤ 0 ∨ s.config.numberOfRounds ≤ 0
    else s.config.setsPerRound ≤ 0 ∨ s.config.numberOfRounds ≤ 0) by
      rw [if_pos rfl]; omega)]
  simp only [if_true]
  rw [if_neg (show ¬((buildHeadToHeadSequence s.config).length = 0) by
    have := buildHeadToHeadSequence_length_pos s.config hppl hr; omega)]
  rw [loadCurrentPhase_zero _ rfl p hp]
  rfl

/-- C4: `startTimer` on a configuration failing validation (non-positive
work duration, or non-positive sets/people/rounds for the mode) fails
synchronously, reports the configuration error, and leaves the state
byte-for-byte unchanged (no partial run state); on a valid configuration
the built sequence is provably non-empty (so the empty-sequence error is
unreachable), and the machine starts with index 0, elapsed 0, phase 0
loaded (`timeRemaining` = 100·duration, i.e. the duration in
centiseconds) and `isRunning = true`. -/
theorem startTimer_validation (s : WorkoutState) :
    ((s.workoutMode = .normal ∨ s.workoutMode = .headToHead) →
      s.config.workDuration ≤ 0 →
      startTimer s = (s, some .workDurationNonpositive, [])) ∧
    (s.workoutMode = .normal → 0 < s.config.workDuration →
      (s.config.setsPerRound ≤ 0 ∨ s.config.numberOfRounds ≤ 0) →
      startTimer s = (s, some .countsNonpositive, [])) ∧
    (s.workoutMode = .headToHead → 0 < s.config.workDuration →
      (s.config.numberOfPeople ≤ 0 ∨ s.config.numberOfRounds ≤ 0) →
      startTimer s = (s, some .countsNonpositive, [])) ∧
    (s.workoutMode = .normal → 0 < s.config.workDuration →
      0 < s.config.setsPerRound → 0 < s.config.numberOfRounds →
      (buildPhaseSequence s.config).length ≠ 0 ∧
      ∀ p, (buildPhaseSequence s.config).get? 0 = some p →
        (startTimer s).2.1 = none ∧
        (startTimer s).1.isRunning = true ∧
        (startTimer s).1.currentPhaseIndex = 0 ∧
        (startTimer s).1.elapsedTime = 0 ∧
        (startTimer s).1.timeRemaining = 100 * p.duration) ∧
    (s.workoutMode = .headToHead → 0 < s.config.workDuration →
      0 < s.config.numberOfPeople → 0 < s.config.numberOfRounds →
      (buildHeadToHeadSequence s.config).length ≠ 0 ∧
      ∀ p, (buildHeadToHeadSequence s.config).get? 0 = some p →
        (startTimer s).2.1 = none ∧
        (startTimer s).1.isRunning = true ∧
        (startTimer s).1.currentPhaseIndex = 0 ∧
        (startTimer s).1.elapsedTime = 0 ∧
        (startTimer s).1.timeRemaining = 100 * p.duration) := by
  refine ⟨fun hmode hw => ?_, fun hmode hw hc => ?_, fun hmode hw hc => ?_,
    fun hmode hw hs hr => ⟨?_, fun p hp => ?_⟩, fun hmode hw hppl hr => ⟨?_, fun p hp => ?_⟩⟩
  · unfold startTimer
    rcases hmode with hmode | hmode <;>
      rw [hmode, if_neg (by decide), if_pos hw]
  · unfold startTimer
    rw [hmode, if_neg (by decide), if_neg (show ¬(s.config.workDuration ≤ 0) by omega)]
    rw [if_pos (show (if Mode.normal = Mode.headToHead then
        s.config.numberOfPeople ≤ 0 ∨ s.config.numberOfRounds ≤ 0
      else s.config.setsPerRound ≤ 0 ∨ s.config.numberOfRounds ≤ 0) by
        rw [if_neg (by decide)]; exact hc)]
  · unfold startTimer
    rw [hmode, if_neg (by decide), if_neg (show ¬(s.config.workDuration ≤ 0) by omega)]
    rw [if_pos (show (if Mode.headToHead = Mode.headToHead then
        s.config.numberOfPeople ≤ 0 ∨ s.config.numberOfRounds ≤ 0
      else s.config.setsPerRound ≤ 0 ∨ s.config.numberOfRounds ≤ 0) by
        rw [if_pos rfl]; exact hc)]
  · have := buildPhaseSequence_length_pos s.config hs hr
    omega
  · rw [startTimer_valid_normal s hmode hw hs hr p hp]
    exact ⟨rfl, rfl, rfl, rfl, rfl⟩
  · have := buildHeadToHeadSequence_length_pos s.config hppl hr
    omega
  · rw [startTimer_valid_h2h s hmode hw hppl hr p hp]
    exact ⟨rfl, rfl, rfl, rfl, rfl⟩

/-- Closed witness for `startTimer_validation`: a zero-sets configuration
is rejected with the state unchanged, and the default configuration starts
with phase 0 (setup, 10 s) loaded. -/
theorem startTimer_validation_witness :
    startTimer { mkReadyState defaultConfig Mode.normal with
        config := { defaultConfig with setsPerRound := 0 } } =
      ({ mkReadyState defaultConfig Mode.normal with
          config := { defaultConfig with setsPerRound := 0 } },
        some .countsNonpositive, []) ∧
    (startTimer (mkReadyState defaultConfig Mode.normal)).1.timeRemaining = 100 * 10 :=
  ⟨(startTimer_validation _).2.1 rfl (by decide) (by decide),
    ((startTimer_validation (mkReadyState defaultConfig Mode.normal)).2.2.2.1 rfl
      (by decide) (by decide) (by decide)).2
      { type := .setup, duration := 10, round := 0, set := 0 } (by decide) |>.2.2.2.2⟩

/-! ## Breathing cycle: wrap-around and non-termination (C8) -/

lemma updateBreathingTimer_decr (s : BreathingState) (h1 : s.breathingIsRunning = true)
    (h2 : s.breathingIsPaused = false) (h3 : s.breathingIsTransitioning = false)
    (h5 : 1 < s.breathingTimeRemaining) :
    updateBreathingTimer s =
      ({ s with breathingTimeRemaining := s.breathingTimeRemaining - 1 }, []) := by
  unfold updateBreathingTimer
  rw [if_neg (by simp [h1, h2, h3])]
  simp only []
  rw [if_pos (show ¬(s.breathingTimeRemaining ≤ 0) by omega)]
  dsimp only
  rw [if_neg (show ¬(s.breathingTimeRemaining - 1 < 0) by omega)]
  dsimp only
  rw [if_neg (show ¬(¬(s.breathingTimeRemaining ≤ 0) ∧ s.breathingTimeRemaining - 1 ≤ 0)
    by omega)]

lemma updateBreathingTimer_boundary (s : BreathingState)
    (h1 : s.breathingIsRunning = true) (h2 : s.breathingIsPaused = false)
    (h3 : s.breathingIsTransitioning = false) (h5 : s.breathingTimeRemaining = 1) :
    updateBreathingTimer s =
      ({ s with
          breathingTimeRemaining := 0
          breathingIsTransitioning := true
          breathingPending := s.breathingPending ++
            [(s.currentBreathingPhaseIndex + 1) %
              (s.breathingPhaseSequence.length : Int)] },
        [.phaseComplete]) := by
  unfold updateBreathingTimer
  rw [if_neg (by simp [h1, h2, h3])]
  simp only []
  rw [if_pos (show ¬(s.breathingTimeRemaining ≤ 0) by omega)]
  dsimp only
  rw [if_neg (show ¬(s.breathingTimeRemaining - 1 < 0) by omega)]
  dsimp only
  rw [if_pos (show ¬(s.breathingTimeRemaining ≤ 0) ∧ s.breathingTimeRemaining - 1 ≤ 0
    by omega)]
  congr 3
  omega

/-- Breathing ticks never change `breathingIsRunning` (only `reset` can
stop the cycle: there is no completion path). -/
lemma updateBreathingTimer_preserves_running (s : BreathingState) :
    (updateBreathingTimer s).1.breathingIsRunning = s.breathingIsRunning := by
  unfold updateBreathingTimer
  simp only []
  split_ifs <;> rfl

/-- Loading a breathing phase of a non-empty sequence always succeeds (the
index wraps into range) and never touches `breathingIsRunning`. -/
lemma loadBreathingPhase_preserves_running (s : BreathingState)
    (hne : s.breathingPhaseSequence ≠ []) :
    (loadBreathingPhase s).breathingIsRunning = s.breathingIsRunning := by
  have hlen : 0 < s.breathingPhaseSequence.length := List.length_pos.mpr hne
  unfold loadBreathingPhase
  by_cases hc : s.currentBreathingPhaseIndex < 0 ∨
      (s.breathingPhaseSequence.length : Int) ≤ s.currentBreathingPhaseIndex
  · rw [if_pos hc]
    dsimp only
    rw [show ((0 : Int).toNat) = 0 from rfl]
    rcases hget : s.breathingPhaseSequence.get? 0 with _ | ph
    · rcases List.get?_eq_none.mp hget with h
      omega
    · rfl
  · rw [if_neg hc]
    dsimp only
    push_neg at hc
    rcases hget : s.breathingPhaseSequence.get? s.currentBreathingPhaseIndex.toNat
      with _ | ph
    · rcases List.get?_eq_none.mp hget with h
      omega
    · rfl

lemma breathingSettleFire_nil (s : BreathingState) (h : s.breathingPending = []) :
    breathingSettleFire s = s := by
  unfold breathingSettleFire
  rw [h]

lemma breathingSettleFire_cons (s : BreathingState) (j : Int) (rest : List Int)
    (h : s.breathingPending = j :: rest) :
    breathingSettleFire s =
      breathingSettleBody { s with breathingPending := rest } j := by
  unfold breathingSettleFire
  rw [h]

/-- Delivery of a breathing settle callback never stops a cycle over a
non-empty sequence. -/
lemma breathingSettleFire_preserves_running (s : BreathingState)
    (hne : s.breathingPhaseSequence ≠ []) :
    (breathingSettleFire s).breathingIsRunning = s.breathingIsRunning := by
  rcases hp : s.breathingPending with _ | ⟨j, rest⟩
  · rw [breathingSettleFire_nil s hp]
  · rw [breathingSettleFire_cons s j rest hp]
    unfold breathingSettleBody
    by_cases hrun : s.breathingIsRunning = true
    · rw [if_neg (by simp [hrun])]
      exact loadBreathingPhase_preserves_running _ hne
    · have hrun2 : s.breathingIsRunning = false := by
        simpa [Bool.not_eq_true] using hrun
      rw [if_pos (by simp [hrun2])]

/-- The spec's example breathing configuration: 4-0-4-0. -/
def exBreathingConfig : BreathingConfig :=
  { breathIn := 4, inhaledHold := 0, breathOut := 4, exhaledHold := 0 }

/-- The state just after the boundary tick of phase `b` of the example
cycle: clock exhausted, transition flag raised, the wrapped next index
scheduled. -/
def exEndState (b : Bool) : BreathingState :=
  { breathingConfig := exBreathingConfig
    currentBreathingPhase := if b then .breathOut else .breathIn
    breathingTimeRemaining := 0
    breathingPhaseSequence := buildBreathingSequence exBreathingConfig
    currentBreathingPhaseIndex := if b then 1 else 0
    breathingIsPaused := false
    breathingIsRunning := true
    breathingIsTransitioning := true
    breathingPending := [((if b then (1 : Int) else 0) + 1) % 2] }

/-- A mid-phase state of the example cycle: phase `b` (`false` =
breath-in, `true` = breath-out) with `t` centiseconds remaining. -/
def exMidState (b : Bool) (t : Int) : BreathingState :=
  { breathingConfig := exBreathingConfig
    currentBreathingPhase := if b then .breathOut else .breathIn
    breathingTimeRemaining := t
    breathingPhaseSequence := buildBreathingSequence exBreathingConfig
    currentBreathingPhaseIndex := if b then 1 else 0
    breathingIsPaused := false
    breathingIsRunning := true
    breathingIsTransitioning := false
    breathingPending := [] }

/-- The state at the start of phase `b` of the example cycle (each phase
is 4 s = 400 centiseconds). -/
def exPhaseState (b : Bool) : BreathingState := exMidState b 400

lemma exRun : ∀ (n : ℕ) (b : Bool) (t : Int), 1 ≤ n → t = (n : Int) →
    (fun st => (updateBreathingTimer st).1)^[n] (exMidState b t) = exEndState b := by
  intro n
  induction n with
  | zero =>
    intro b t h ht
    exact absurd h (by norm_num)
  | succ n ih =>
    intro b t h ht
    by_cases hn : n = 0
    · subst hn
      subst ht
      cases b <;> decide
    · have hstep : (updateBreathingTimer (exMidState b t)).1 = exMidState b (t - 1) := by
        rw [updateBreathingTimer_decr (exMidState b t) rfl rfl rfl
          (by show (1 : Int) < t; omega)]
        rfl
      rw [Function.iterate_succ_apply]
      rw [hstep]
      exact ih b (t - 1) (by omega) (by omega)

/-- One full phase of the example cycle: 400 tick deliveries (the last one
is the boundary tick) followed by the settle callback firing. -/
def breathingPhaseCycle (s : BreathingState) : BreathingState :=
  breathingSettleFire ((fun st => (updateBreathingTimer st).1)^[400] s)

lemma breathingPhaseCycle_ex (b : Bool) :
    breathingPhaseCycle (exPhaseState b) = exPhaseState (!b) := by
  unfold breathingPhaseCycle exPhaseState
  rw [exRun 400 b 400 (by norm_num) (by norm_num)]
  cases b <;> decide

/-- The ready breathing state with the example configuration loaded. -/
def breathingStartState : BreathingState :=
  { breathingConfig := exBreathingConfig
    currentBreathingPhase := .ready
    breathingTimeRemaining := 0
    breathingPhaseSequence := []
    currentBreathingPhaseIndex := 0
    breathingIsPaused := false
    breathingIsRunning := false
    breathingIsTransitioning := false
    breathingPending := [] }

/-- The example run after `N` completed phases. -/
def breathingAfterPhases (N : ℕ) : BreathingState :=
  breathingPhaseCycle^[N] (startBreathingTimer breathingStartState).1

lemma breathingAfterPhases_eq (N : ℕ) :
    breathingAfterPhases N = exPhaseState (decide (N % 2 = 1)) := by
  induction N with
  | zero => decide
  | succ N ih =>
    unfold breathingAfterPhases at ih ⊢
    rw [Function.iterate_succ_apply', ih, breathingPhaseCycle_ex]
    congr 1
    rcases Nat.mod_two_eq_zero_or_one N with h | h
    · have h2 : (N + 1) % 2 = 1 := by omega
      simp [h, h2]
    · have h2 : (N + 1) % 2 = 0 := by omega
      simp [h, h2]

/-- C8: the breathing engine wraps its index modulo the sequence length
and never terminates: the boundary tick schedules `(index+1) mod length`,
ticks and settle deliveries never clear `breathingIsRunning` (for any
non-empty sequence), and in the 4-0-4-0 example the two-phase cycle
repeats indefinitely with `currentBreathingPhaseIndex = N mod 2` after `N`
completed phases, the machine still running. -/
theorem breathing_wraps_and_never_completes :
    (∀ s : BreathingState,
      (updateBreathingTimer s).1.breathingIsRunning = s.breathingIsRunning) ∧
    (∀ s : BreathingState, s.breathingPhaseSequence ≠ [] →
      (breathingSettleFire s).breathingIsRunning = s.breathingIsRunning) ∧
    (∀ s : BreathingState, s.breathingIsRunning = true → s.breathingIsPaused = false →
      s.breathingIsTransitioning = false → s.breathingTimeRemaining = 1 →
      (updateBreathingTimer s).1.breathingPending =
        s.breathingPending ++ [(s.currentBreathingPhaseIndex + 1) %
          (s.breathingPhaseSequence.length : Int)]) ∧
    (∀ N : ℕ, (breathingAfterPhases N).currentBreathingPhaseIndex = (N % 2 : ℕ) ∧
      (breathingAfterPhases N).breathingIsRunning = true) := by
  refine ⟨updateBreathingTimer_preserves_running,
    breathingSettleFire_preserves_running, fun s h1 h2 h3 h5 => ?_, fun N => ?_⟩
  · rw [updateBreathingTimer_boundary s h1 h2 h3 h5]
  · rw [breathingAfterPhases_eq N]
    rcases Nat.mod_two_eq_zero_or_one N with h | h
    · rw [h]
      simp [h, exPhaseState, exMidState]
    · rw [h]
      simp [h, exPhaseState, exMidState]

/-- Closed witness for `breathing_wraps_and_never_completes`: settle
delivery on a concrete running 4-0-4-0 state preserves running, and the
boundary tick at the start-phase state with one quantum left schedules
index `(0+1) mod 2`. -/
theorem breathing_wraps_and_never_completes_witness :
    (breathingSettleFire (exPhaseState false)).breathingIsRunning =
      (exPhaseState false).breathingIsRunning ∧
    (updateBreathingTimer (exMidState false 1)).1.breathingPending =
      (exMidState false 1).breathingPending ++
        [((exMidState false 1).currentBreathingPhaseIndex + 1) %
          ((exMidState false 1).breathingPhaseSequence.length : Int)] :=
  ⟨breathing_wraps_and_never_completes.2.1 (exPhaseState false) (by decide),
    breathing_wraps_and_never_completes.2.2.1 (exMidState false 1) rfl rfl rfl rfl⟩

/-! ## Reset during the settle delay (C2)

`resetTimer` clears the tick interval but never cancels the pending
`setTimeout` settle callback; the callback only checks the boolean
`isRunning` when it fires.  If a new run is started before the old 500 ms
delay elapses, the stale callback sees `isRunning = true` and advances the
*new* run to its captured `nextIndex`.  The trace below exhibits this. -/

/-- A minimal interval configuration: no setup/warmup, 1 s work, 1 s rest,
2 sets, 1 round (sequence: work₁, rest, work₂). -/
def c2Config : WorkoutConfig :=
  { setupDuration := 0, warmupDuration := 0, workDuration := 1, restDuration := 1,
    longRestDuration := 0, setsPerRound := 2, numberOfRounds := 1, numberOfPeople := 0 }

/-- The running state of the `c2Config` run inside its first work phase,
with `t` centiseconds remaining and `e` elapsed. -/
def c2MidState (t e : Int) : WorkoutState :=
  { config := c2Config, workoutMode := .normal, currentPhase := .work, currentRound := 1,
    currentSet := 1, nextSet := 0, currentPerson := 0, timeRemaining := t,
    totalWorkoutTime := totalOf (buildPhaseSequence c2Config), elapsedTime := e,
    lapTimes := [], lapStartTime := 0, isPaused := false, isRunning := true,
    isCompleting := false, isTransitioning := false,
    phaseSequence := buildPhaseSequence c2Config, currentPhaseIndex := 0, pending := [] }

/-- The state right after the boundary tick of the first work phase:
mid-transition, with the settle callback scheduled carrying `nextIndex = 1`. -/
def c2EndState (e : Int) : WorkoutState :=
  { config := c2Config, workoutMode := .normal, currentPhase := .work, currentRound := 1,
    currentSet := 1, nextSet := 0, currentPerson := 0, timeRemaining := 0,
    totalWorkoutTime := totalOf (buildPhaseSequence c2Config), elapsedTime := e,
    lapTimes := [], lapStartTime := 0, isPaused := false, isRunning := true,
    isCompleting := false, isTransitioning := true,
    phaseSequence := buildPhaseSequence c2Config, currentPhaseIndex := 0, pending := [1] }

lemma c2Run : ∀ (n : ℕ) (t e : Int), 1 ≤ n → t = (n : Int) →
    tickSteps n (c2MidState t e) = c2EndState (e + n) := by
  intro n
  induction n with
  | zero =>
    intro t e h ht
    exact absurd h (by norm_num)
  | succ n ih =>
    intro t e h ht
    by_cases hn : n = 0
    · subst hn
      have hb : (updateTimer (c2MidState t e)).1 = c2EndState (e + 1) := by
        rw [updateTimer_boundary (c2MidState t e) rfl rfl rfl
          (by show Mode.normal ≠ Mode.stopwatch; decide) (by show t = 1; omega)]
        rfl
      unfold tickSteps
      rw [show ((fun st : WorkoutState => (updateTimer st).1)^[1]) (c2MidState t e) =
        (updateTimer (c2MidState t e)).1 from rfl]
      rw [hb]
      norm_num
    · have hstep : (updateTimer (c2MidState t e)).1 = c2MidState (t - 1) (e + 1) := by
        rw [updateTimer_decr (c2MidState t e) rfl rfl rfl
          (by show Mode.normal ≠ Mode.stopwatch; decide) (by show (1 : Int) < t; omega)]
        rfl
      have hrest := ih (t - 1) (e + 1) (by omega) (by omega)
      unfold tickSteps at hrest ⊢
      rw [Function.iterate_succ_apply]
      rw [hstep, hrest]
      congr 1
      push_cast
      ring

/-- Start the run and deliver the 100 ticks of the first work phase (the
last one is the boundary tick that schedules the settle callback). -/
def c2AfterBoundary : WorkoutState :=
  tickSteps 100 (startTimer (mkReadyState c2Config Mode.normal)).1

lemma c2AfterBoundary_eq : c2AfterBoundary = c2EndState 100 := by
  unfold c2AfterBoundary
  rw [show (startTimer (mkReadyState c2Config Mode.normal)).1 = c2MidState 100 0
    by decide]
  exact c2Run 100 100 0 (by norm_num) (by norm_num)

/-- `reset()` delivered during the settle delay. -/
def c2Resetted : WorkoutState := resetTimer c2AfterBoundary

/-- A new run started before the old 500 ms delay has elapsed. -/
def c2Restarted : WorkoutState := (startTimer c2Resetted).1

/-- The stale settle callback of the first run finally fires. -/
def c2Final : WorkoutState × List Notif := settleFire c2Restarted

/-- C2 (counter-demonstration on the code): after a boundary, `reset()`
leaves the machine ready but the scheduled settle callback survives
(`pending = [1]`); a new run started before the delay elapses loads its
phase 0 (work, 1 s); when the stale callback then fires it sees
`isRunning = true`, advances the *new* run's index to the captured `1`,
loads the rest phase and emits its phase-loaded cue — the pending
advancement of the reset run does have an effect, contradicting the
claim's cancellation requirement. -/
theorem reset_then_restart_stale_settle_fires :
    c2Resetted.isRunning = false ∧
    c2Resetted.currentPhase = .ready ∧
    c2Resetted.pending = [1] ∧
    c2Restarted.isRunning = true ∧
    c2Restarted.currentPhaseIndex = 0 ∧
    c2Restarted.currentPhase = .work ∧
    c2Restarted.timeRemaining = 100 ∧
    c2Final.1.currentPhaseIndex = 1 ∧
    c2Final.1.currentPhase = .rest ∧
    c2Final.1.timeRemaining = 100 ∧
    c2Final.2 = [.phaseLoaded] := by
  have h := c2AfterBoundary_eq
  unfold c2Final c2Restarted c2Resetted
  rw [h]
  decide

end WorkoutTimer
